import Mathlib

/-!
Verification of the Advanced PID Controller core against its design document.

The host-integration surface (`custom_components/advanced_pid_controller/__init__.py`)
is embedded directly: Home Assistant's state machine and entity registry become
explicit lookup functions, Python's `float()` coercion becomes an abstract
`String → Option ℚ` parameter (`some` when the string parses, `none` when `float`
would raise `ValueError`), and numeric values are modelled with exact rationals.
The PID Engine, Control Session, and the Resolver's limit post-processing are not
part of the available source; they are modelled from the design document
(each such definition is marked `Modelled from the spec:`).
-/

namespace AdvancedPID

/-- A Home Assistant entity state object; only its `state` string is read here. -/
structure HAState where
  state : String
deriving DecidableEq

/-- The slice of the Home Assistant core the integration reads: the state machine
(`hass.states.get(entity_id)`) and the entity registry lookup
(`er.async_get_entity_id(platform, DOMAIN, unique_id)`). -/
structure Hass where
  states : String → Option HAState
  registry : String → String → Option String

/-- The fields of a `ConfigEntry` this integration reads. -/
structure ConfigEntry where
  entry_id : String
  data_name : Option String
  data_sensor : Option String
  options_sensor : Option String

/-- Python `float(s)` as an abstract coercion: `some q` when the string parses as a
number, `none` when `float` would raise `ValueError`. -/
abbrev PyFloat := String → Option ℚ

/-- `entry.options.get(CONF_SENSOR_ENTITY_ID, entry.data.get(CONF_SENSOR_ENTITY_ID))`:
the options value when present, otherwise the data value. -/
def ConfigEntry.sensorOption (entry : ConfigEntry) : Option String :=
  entry.options_sensor.orElse fun _ => entry.data_sensor

/-- The `PIDDeviceHandle` fields written by `__init__`. -/
structure PIDDeviceHandle where
  entry_id : String
  name : Option String
  sensor_entity_id : Option String
  last_contributions : Option ℚ × Option ℚ × Option ℚ
deriving DecidableEq

/-- `PIDDeviceHandle.__init__`: stores the configured sensor entity id and starts
with `last_contributions = (None, None, None)`. -/
def PIDDeviceHandle.init (entry : ConfigEntry) : PIDDeviceHandle :=
  { entry_id := entry.entry_id
    name := entry.data_name
    sensor_entity_id := entry.sensorOption
    last_contributions := (none, none, none) }

/-- `PIDDeviceHandle._get_entity_id`: registry lookup of the per-entry unique id
`f"{entry.entry_id}_{key}"` on the given platform. -/
def get_entity_id (hass : Hass) (h : PIDDeviceHandle) (platform key : String) :
    Option String :=
  hass.registry platform (h.entry_id ++ "_" ++ key)

/-- `PIDDeviceHandle.get_number`: registry lookup (a falsy entity id — `None` or the
empty string — yields `None`), then state lookup, then `float` coercion; an
unknown/unavailable state or a `ValueError` is swallowed and yields `None`. -/
def get_number (pyFloat : PyFloat) (hass : Hass) (h : PIDDeviceHandle)
    (key : String) : Option ℚ :=
  match get_entity_id hass h "number" key with
  | none => none
  | some entity_id =>
    if entity_id = "" then none
    else
      match hass.states entity_id with
      | none => none
      | some st =>
        if st.state = "unknown" ∨ st.state = "unavailable" then none
        else pyFloat st.state

/-- `PIDDeviceHandle.get_switch`: registry lookup (a falsy entity id yields `True`,
the fail-open default), then state lookup; a missing or unknown/unavailable state
yields `True`, and an explicit state compares against `"on"`. -/
def get_switch (hass : Hass) (h : PIDDeviceHandle) (key : String) : Bool :=
  match get_entity_id hass h "switch" key with
  | none => true
  | some entity_id =>
    if entity_id = "" then true
    else
      match hass.states entity_id with
      | none => true
      | some st =>
        if st.state = "unknown" ∨ st.state = "unavailable" then true
        else st.state == "on"

/-- `PIDDeviceHandle.get_input_sensor_value`: state lookup of the configured sensor
entity (`hass.states.get(None)` is `None` when no sensor is configured), then `float`
coercion; an unknown/unavailable state or a `ValueError` yields `None` (logged as a
warning in the source). -/
def get_input_sensor_value (pyFloat : PyFloat) (hass : Hass)
    (h : PIDDeviceHandle) : Option ℚ :=
  match h.sensor_entity_id with
  | none => none
  | some entity_id =>
    match hass.states entity_id with
    | none => none
    | some st =>
      if st.state = "unknown" ∨ st.state = "unavailable" then none
      else pyFloat st.state

/-- `async_setup_entry`: reads the configured sensor state before creating the
handle; raises `ConfigEntryNotReady` (modelled as `Except.error ()`) when the sensor
state is absent or unknown/unavailable, and otherwise creates and stores a fresh
`PIDDeviceHandle`. -/
def async_setup_entry (hass : Hass) (entry : ConfigEntry) :
    Except Unit PIDDeviceHandle :=
  match entry.sensorOption with
  | none => Except.error ()
  | some entity_id =>
    match hass.states entity_id with
    | none => Except.error ()
    | some st =>
      if st.state = "unknown" ∨ st.state = "unavailable" then Except.error ()
      else Except.ok (PIDDeviceHandle.init entry)

/-- Modelled from the spec: the TuningParameters record resolved by the Parameter
Resolver each tick (gains, setpoint, output limits, per-term enable flags). -/
structure TuningParameters where
  proportional_gain : ℚ
  integral_gain : ℚ
  derivative_gain : ℚ
  setpoint : ℚ
  output_min : ℚ
  output_max : ℚ
  proportional_enabled : Bool
  integral_enabled : Bool
  derivative_enabled : Bool
deriving DecidableEq

/-- Modelled from the spec: the per-session ControllerState mutated only by the
Engine during a tick. -/
structure ControllerState where
  integral_accumulator : ℚ
  previous_measurement : Option ℚ
  last_tick_time : Option ℚ
deriving DecidableEq

/-- Modelled from the spec: the per-tick Contributions breakdown; `none` marks a
term that was disabled or could not be computed. -/
structure Contributions where
  proportional : Option ℚ
  integral : Option ℚ
  derivative : Option ℚ
deriving DecidableEq

/-- Clamp a value into the interval between `lo` and `hi`. -/
def clamp (x lo hi : ℚ) : ℚ := max lo (min x hi)

/-- The value a term contributes to the output sum: its number when computed,
zero when it is `none`. -/
def contribution (c : Option ℚ) : ℚ := c.getD 0

/-- Modelled from the spec: Engine step 1, `error = setpoint - measurement`. -/
def errorOf (tuning : TuningParameters) (measurement : ℚ) : ℚ :=
  tuning.setpoint - measurement

/-- Modelled from the spec: Engine step 2, the proportional contribution, `none`
when the proportional term is disabled. -/
def pTerm (tuning : TuningParameters) (err : ℚ) : Option ℚ :=
  if tuning.proportional_enabled then some (tuning.proportional_gain * err) else none

/-- Modelled from the spec: Engine step 3, the accumulator update — accumulate
`integral_gain * error * elapsed_time` when the integral term is enabled, hold the
accumulator unchanged (not reset) when it is disabled. -/
def accumulate (tuning : TuningParameters) (acc err elapsed : ℚ) : ℚ :=
  if tuning.integral_enabled then acc + tuning.integral_gain * err * elapsed else acc

/-- The accumulator after step 3, starting from the session state. -/
def accAfter (tuning : TuningParameters) (state : ControllerState)
    (measurement elapsed : ℚ) : ℚ :=
  accumulate tuning state.integral_accumulator (errorOf tuning measurement) elapsed

/-- Modelled from the spec: the integral contribution before anti-windup — the
updated accumulator when enabled, `none` when disabled. -/
def iTermRaw (tuning : TuningParameters) (state : ControllerState)
    (measurement elapsed : ℚ) : Option ℚ :=
  if tuning.integral_enabled then some (accAfter tuning state measurement elapsed)
  else none

/-- Modelled from the spec: Engine step 5, the derivative contribution, computed on
measurement (not on error) to avoid derivative kick; `none` when the derivative term
is disabled or no previous measurement exists. -/
def dTerm (tuning : TuningParameters) (prev : Option ℚ) (measurement elapsed : ℚ) :
    Option ℚ :=
  if tuning.derivative_enabled then
    match prev with
    | some pm => some ((-tuning.derivative_gain) * (measurement - pm) / elapsed)
    | none => none
  else none

/-- The raw unclamped sum P + I + D with disabled terms contributing zero. -/
def rawSum (tuning : TuningParameters) (state : ControllerState)
    (measurement elapsed : ℚ) : ℚ :=
  contribution (pTerm tuning (errorOf tuning measurement))
    + contribution (iTermRaw tuning state measurement elapsed)
    + contribution (dTerm tuning state.previous_measurement measurement elapsed)

/-- Modelled from the spec: Engine step 4 anti-windup back-calculation — when the
raw sum overshoots a bound, move the accumulator so the sum hits the bound exactly;
a disabled integral term leaves the accumulator untouched. -/
def backCalc (tuning : TuningParameters) (acc raw : ℚ) : ℚ :=
  if tuning.integral_enabled then
    if raw > tuning.output_max then acc - (raw - tuning.output_max)
    else if raw < tuning.output_min then acc + (tuning.output_min - raw)
    else acc
  else acc

/-- The accumulator stored back into the state after anti-windup. -/
def accFinal (tuning : TuningParameters) (state : ControllerState)
    (measurement elapsed : ℚ) : ℚ :=
  backCalc tuning (accAfter tuning state measurement elapsed)
    (rawSum tuning state measurement elapsed)

/-- The integral contribution reported after anti-windup. -/
def iTermFinal (tuning : TuningParameters) (state : ControllerState)
    (measurement elapsed : ℚ) : Option ℚ :=
  if tuning.integral_enabled then some (accFinal tuning state measurement elapsed)
  else none

/-- Modelled from the spec: Engine step 6, `output = clamp(P + I + D, output_min,
output_max)`, with the post-anti-windup integral contribution. -/
def outputOf (tuning : TuningParameters) (state : ControllerState)
    (measurement elapsed : ℚ) : ℚ :=
  clamp (contribution (pTerm tuning (errorOf tuning measurement))
      + contribution (iTermFinal tuning state measurement elapsed)
      + contribution (dTerm tuning state.previous_measurement measurement elapsed))
    tuning.output_min tuning.output_max

/-- Modelled from the spec: one PID Engine tick — a pure function of
(measurement, tuning, state, elapsed_time). A non-positive elapsed time (clock
anomaly, step 7) is a no-op returning `none` before any division is attempted;
otherwise the output, the contribution breakdown and the new state are returned,
with `previous_measurement` updated regardless of the derivative flag. -/
def engineTick (tuning : TuningParameters) (state : ControllerState)
    (measurement elapsed now : ℚ) : Option (ℚ × Contributions × ControllerState) :=
  if elapsed ≤ 0 then none
  else
    some (outputOf tuning state measurement elapsed,
      ⟨pTerm tuning (errorOf tuning measurement),
        iTermFinal tuning state measurement elapsed,
        dTerm tuning state.previous_measurement measurement elapsed⟩,
      { integral_accumulator := accFinal tuning state measurement elapsed
        previous_measurement := some measurement
        last_tick_time := some now })

/-- Modelled from the spec: the Control Session record — the Engine state it owns,
the last output it returned to the host, and the last stored contributions. -/
structure Session where
  state : ControllerState
  lastOutput : ℚ
  lastContributions : Contributions
deriving DecidableEq

/-- Modelled from the spec: one Control Session tick given the already-resolved
tuning and sensor reading — an invalid reading (`none`) or an Engine no-op skips
the computation, holding the previous output and the whole state; a computed tick
stores the new state and contributions and returns the Engine output. -/
def sessionTick (tuning : TuningParameters) (reading : Option ℚ)
    (elapsed now : ℚ) (s : Session) : ℚ × Session :=
  match reading with
  | none => (s.lastOutput, s)
  | some m =>
    match engineTick tuning s.state m elapsed now with
    | none => (s.lastOutput, s)
    | some (out, c, st) => (out, ⟨st, out, c⟩)

/-- Modelled from the spec: the Resolver's output-limit post-processing — once both
limits are resolved, swap them when the invariant `output_min ≤ output_max` is
violated. -/
def resolveLimits (rawMin rawMax : ℚ) : ℚ × ℚ :=
  if rawMax < rawMin then (rawMax, rawMin) else (rawMin, rawMax)

/-- A tuning record whose limit pair went through `resolveLimits`, as handed to the
Engine. -/
def applyResolvedLimits (tuning : TuningParameters) (rawMin rawMax : ℚ) :
    TuningParameters :=
  { tuning with
    output_min := (resolveLimits rawMin rawMax).1
    output_max := (resolveLimits rawMin rawMax).2 }

/-- Modelled from the spec: the Resolver's `get_number(key, default)` — the caller
layer that supplies the per-field default on top of the source's `get_number` is
not under src; the spec says coercion failure falls back to `default` silently. -/
def get_number_with_default (pyFloat : PyFloat) (hass : Hass)
    (h : PIDDeviceHandle) (key : String) (deflt : ℚ) : ℚ :=
  (get_number pyFloat hass h key).getD deflt

/-- The state object the switch lookup chain reaches, if any: a registry hit with a
truthy entity id that has a state in the state machine. -/
def switchStateOf (hass : Hass) (h : PIDDeviceHandle) (key : String) :
    Option HAState :=
  match get_entity_id hass h "switch" key with
  | none => none
  | some entity_id => if entity_id = "" then none else hass.states entity_id

/-- The state object the number lookup chain reaches, if any. -/
def numberStateOf (hass : Hass) (h : PIDDeviceHandle) (key : String) :
    Option HAState :=
  match get_entity_id hass h "number" key with
  | none => none
  | some entity_id => if entity_id = "" then none else hass.states entity_id

/-- The state object of the configured process-variable sensor, if any. -/
def sensorStateOf (hass : Hass) (h : PIDDeviceHandle) : Option HAState :=
  match h.sensor_entity_id with
  | none => none
  | some entity_id => hass.states entity_id

/-- The Resolver contract for switches, written from the spec: `true` (fail-open)
when the source is absent or in an unknown/unavailable state, and the explicit
on/off state otherwise. -/
def switch_contract (st : Option HAState) : Bool :=
  match st with
  | none => true
  | some s =>
    if s.state = "unknown" ∨ s.state = "unavailable" then true
    else s.state == "on"

/-- The Resolver contract for numbers, written from the spec: the raw value coerced
to a number, with `default` returned when the source is absent, in an
unknown/unavailable state, or not parseable. -/
def number_contract (pyFloat : PyFloat) (st : Option HAState) (deflt : ℚ) : ℚ :=
  match st with
  | none => deflt
  | some s =>
    if s.state = "unknown" ∨ s.state = "unavailable" then deflt
    else (pyFloat s.state).getD deflt

/-- The Sensor Gate contract, written from the spec: an invalid reading (`none`)
exactly when the source is absent, in an unknown/unavailable state, or not
parseable as a number; the coerced value otherwise. -/
def gate_contract (pyFloat : PyFloat) (st : Option HAState) : Option ℚ :=
  match st with
  | none => none
  | some s =>
    if s.state = "unknown" ∨ s.state = "unavailable" then none
    else pyFloat s.state

/-- The setup precondition, written from the spec: the configured sensor source is
present and not unknown/unavailable at startup. -/
def sensorReadyAtStartup (hass : Hass) (entry : ConfigEntry) : Bool :=
  match entry.sensorOption with
  | none => false
  | some entity_id =>
    match hass.states entity_id with
    | none => false
    | some st =>
      if st.state = "unknown" ∨ st.state = "unavailable" then false else true

/-- C2: for every parameter key, `get_switch` agrees with the spec's fail-open
contract applied to the state its lookup chain reaches — `true` when the source is
absent or unknown/unavailable, the explicit comparison with "on" otherwise. -/
theorem c2_get_switch_fail_open (hass : Hass) (h : PIDDeviceHandle) (key : String) :
    get_switch hass h key = switch_contract (switchStateOf hass h key) := by
  rcases hreg : get_entity_id hass h "switch" key with _ | entity_id
  · simp [get_switch, switch_contract, switchStateOf, hreg]
  · by_cases he : entity_id = ""
    · simp [get_switch, switch_contract, switchStateOf, hreg, he]
    · rcases hst : hass.states entity_id with _ | st
      · simp [get_switch, switch_contract, switchStateOf, hreg, he, hst]
      · by_cases hs : st.state = "unknown" ∨ st.state = "unavailable" <;>
          simp [get_switch, switch_contract, switchStateOf, hreg, he, hst, hs]

/-- C3: for every parameter key and default, the spec's `get_number(key, default)`
(the source's `get_number` with the default applied) agrees with the spec contract:
the coerced number when the value parses, the default on an absent source, an
unknown/unavailable state, or a parse failure — no error is raised in any case. -/
theorem c3_get_number_default_fallback (pyFloat : PyFloat) (hass : Hass)
    (h : PIDDeviceHandle) (key : String) (deflt : ℚ) :
    get_number_with_default pyFloat hass h key deflt
      = number_contract pyFloat (numberStateOf hass h key) deflt := by
  rcases hreg : get_entity_id hass h "number" key with _ | entity_id
  · simp [get_number_with_default, get_number, number_contract, numberStateOf, hreg]
  · by_cases he : entity_id = ""
    · simp [get_number_with_default, get_number, number_contract, numberStateOf,
        hreg, he]
    · rcases hst : hass.states entity_id with _ | st
      · simp [get_number_with_default, get_number, number_contract, numberStateOf,
          hreg, he, hst]
      · by_cases hs : st.state = "unknown" ∨ st.state = "unavailable" <;>
          simp [get_number_with_default, get_number, number_contract, numberStateOf,
            hreg, he, hst, hs]

/-- C4: the Sensor Gate's read returns an invalid reading (`none`) exactly when the
configured source is absent, unknown/unavailable, or not parseable, and otherwise
the source value coerced to a number: `get_input_sensor_value` agrees with the
spec's gate contract applied to the sensor's state. -/
theorem c4_sensor_gate_validity (pyFloat : PyFloat) (hass : Hass)
    (h : PIDDeviceHandle) :
    get_input_sensor_value pyFloat hass h
      = gate_contract pyFloat (sensorStateOf hass h) := by
  rcases hid : h.sensor_entity_id with _ | entity_id
  · simp [get_input_sensor_value, gate_contract, sensorStateOf, hid]
  · rcases hst : hass.states entity_id with _ | st <;>
      simp [get_input_sensor_value, gate_contract, sensorStateOf, hid, hst]

/-- C9: setup fails with a not-ready error, creating no handle, exactly when the
configured sensor state is absent or unknown/unavailable at startup; in every other
case it succeeds with a freshly constructed handle. -/
theorem c9_setup_blocks_only_on_missing_sensor (hass : Hass) (entry : ConfigEntry) :
    async_setup_entry hass entry
      = (if sensorReadyAtStartup hass entry
          then Except.ok (PIDDeviceHandle.init entry)
          else Except.error ()) := by
  rcases hopt : entry.sensorOption with _ | entity_id
  · simp [async_setup_entry, sensorReadyAtStartup, hopt]
  · rcases hst : hass.states entity_id with _ | st
    · simp [async_setup_entry, sensorReadyAtStartup, hopt, hst]
    · by_cases hs : st.state = "unknown" ∨ st.state = "unavailable" <;>
        simp [async_setup_entry, sensorReadyAtStartup, hopt, hst, hs]

/-- C10: immediately after a handle is constructed, the stored last contributions
triple is (None, None, None). -/
theorem c10_initial_contributions_none (entry : ConfigEntry) :
    (PIDDeviceHandle.init entry).last_contributions = (none, none, none) := rfl

/-- A clamped value lies between its bounds whenever the bounds are ordered. -/
theorem clamp_mem (x lo hi : ℚ) (hlh : lo ≤ hi) :
    lo ≤ clamp x lo hi ∧ clamp x lo hi ≤ hi := by
  unfold clamp
  exact ⟨le_max_left lo (min x hi), max_le hlh (min_le_right x hi)⟩

/-- C1: for every tuning configuration (any gains, any enable flags) whose limit
pair is ordered, every state and every finite measurement, a computed Engine tick
yields an output inside the closed interval from output_min to output_max. -/
theorem c1_output_within_limits (tuning : TuningParameters)
    (state : ControllerState) (measurement elapsed now out : ℚ)
    (c : Contributions) (st : ControllerState)
    (hlim : tuning.output_min ≤ tuning.output_max)
    (htick : engineTick tuning state measurement elapsed now = some (out, c, st)) :
    tuning.output_min ≤ out ∧ out ≤ tuning.output_max := by
  unfold engineTick at htick
  split at htick
  · simp at htick
  · rw [Option.some.injEq, Prod.mk.injEq] at htick
    obtain ⟨hout, -⟩ := htick
    subst hout
    unfold outputOf
    exact clamp_mem _ _ _ hlim

/-- Witness for C1 at the spec's worked example: setpoint 70, proportional gain 2,
measurement 65, bounds 0 to 100 give output 10, which lies inside the bounds. -/
theorem c1_output_within_limits_witness :
    (⟨2, 0, 0, 70, 0, 100, true, false, false⟩ : TuningParameters).output_min
      ≤ (⟨2, 0, 0, 70, 0, 100, true, false, false⟩ : TuningParameters).output_max ∧
    engineTick ⟨2, 0, 0, 70, 0, 100, true, false, false⟩ ⟨0, none, none⟩ 65 1 1
      = some (10, ⟨some 10, none, none⟩, ⟨0, some 65, some 1⟩) ∧
    ((⟨2, 0, 0, 70, 0, 100, true, false, false⟩ : TuningParameters).output_min ≤ 10
      ∧ (10 : ℚ)
        ≤ (⟨2, 0, 0, 70, 0, 100, true, false, false⟩ : TuningParameters).output_max)
    := by
  have hEq : engineTick ⟨2, 0, 0, 70, 0, 100, true, false, false⟩ ⟨0, none, none⟩
      65 1 1 = some (10, ⟨some 10, none, none⟩, ⟨0, some 65, some 1⟩) := by
    norm_num [engineTick, outputOf, clamp, contribution, pTerm, iTermFinal,
      iTermRaw, accFinal, accAfter, accumulate, backCalc, dTerm, errorOf, rawSum,
      min_def, max_def]
  exact ⟨by norm_num, hEq,
    c1_output_within_limits ⟨2, 0, 0, 70, 0, 100, true, false, false⟩
      ⟨0, none, none⟩ 65 1 1 10 ⟨some 10, none, none⟩ ⟨0, some 65, some 1⟩
      (by norm_num) hEq⟩

/-- C5: a tick whose sensor reading is invalid skips the PID computation — the
returned output and the whole Session (ControllerState with its accumulator,
previous measurement and last tick time, and the stored contributions) are exactly
the previous ones. -/
theorem c5_invalid_reading_skips (pyFloat : PyFloat) (hass : Hass)
    (h : PIDDeviceHandle) (tuning : TuningParameters) (elapsed now : ℚ)
    (s : Session) (hinv : get_input_sensor_value pyFloat hass h = none) :
    sessionTick tuning (get_input_sensor_value pyFloat hass h) elapsed now s
      = (s.lastOutput, s) := by
  rw [hinv]
  rfl

/-- Witness for C5 with no sensor configured: the gate reading is invalid and the
tick returns the previous output with the session unchanged. -/
theorem c5_invalid_reading_skips_witness :
    get_input_sensor_value (fun _ => none) ⟨fun _ => none, fun _ _ => none⟩
        ⟨"e", none, none, (none, none, none)⟩ = none ∧
    sessionTick ⟨1, 1, 1, 50, 0, 100, true, true, true⟩
        (get_input_sensor_value (fun _ => none) ⟨fun _ => none, fun _ _ => none⟩
          ⟨"e", none, none, (none, none, none)⟩) 1 1
        ⟨⟨2, some 40, some 0⟩, 7, ⟨some 7, none, none⟩⟩
      = (7, ⟨⟨2, some 40, some 0⟩, 7, ⟨some 7, none, none⟩⟩) :=
  ⟨rfl, c5_invalid_reading_skips _ _ _ _ _ _ _ rfl⟩

/-- C6: a tick with zero or negative elapsed time is a no-op — the Engine declines
to compute (before any division by the elapsed time is attempted, so no division by
zero or by a negative duration occurs), and the session returns the previous output
with all state unchanged. -/
theorem c6_nonpositive_elapsed_noop (tuning : TuningParameters)
    (m elapsed now : ℚ) (s : Session) (helapsed : elapsed ≤ 0) :
    engineTick tuning s.state m elapsed now = none ∧
    sessionTick tuning (some m) elapsed now s = (s.lastOutput, s) := by
  have ht : engineTick tuning s.state m elapsed now = none := by
    unfold engineTick
    exact if_pos helapsed
  exact ⟨ht, by simp [sessionTick, ht]⟩

/-- Witness for C6 at elapsed time zero: the tick is skipped and the previous
output 7 is returned with the session unchanged. -/
theorem c6_nonpositive_elapsed_noop_witness :
    (0 : ℚ) ≤ 0 ∧
    (engineTick ⟨1, 1, 1, 50, 0, 100, true, true, true⟩ ⟨2, some 40, some 0⟩ 45 0 9
        = none ∧
      sessionTick ⟨1, 1, 1, 50, 0, 100, true, true, true⟩ (some 45) 0 9
          ⟨⟨2, some 40, some 0⟩, 7, ⟨some 7, none, none⟩⟩
        = (7, ⟨⟨2, some 40, some 0⟩, 7, ⟨some 7, none, none⟩⟩)) :=
  ⟨le_refl 0,
    c6_nonpositive_elapsed_noop ⟨1, 1, 1, 50, 0, 100, true, true, true⟩ 45 0 9
      ⟨⟨2, some 40, some 0⟩, 7, ⟨some 7, none, none⟩⟩ (le_refl 0)⟩

/-- C7: a computed tick with the integral term disabled holds the accumulator
exactly (not reset), reports no integral contribution, and a subsequent tick with
the integral term enabled accumulates on top of the frozen value — the accumulator
update starts from the original value as if it had never been disabled. -/
theorem c7_integral_accumulator_frozen (tuning tuning2 : TuningParameters)
    (state : ControllerState) (measurement elapsed now out m2 e2 : ℚ)
    (c : Contributions) (st : ControllerState)
    (hdis : tuning.integral_enabled = false)
    (htick : engineTick tuning state measurement elapsed now = some (out, c, st))
    (hen : tuning2.integral_enabled = true) :
    st.integral_accumulator = state.integral_accumulator ∧ c.integral = none ∧
    accAfter tuning2 st m2 e2
      = state.integral_accumulator
        + tuning2.integral_gain * errorOf tuning2 m2 * e2 := by
  unfold engineTick at htick
  split at htick
  · simp at htick
  · rw [Option.some.injEq, Prod.mk.injEq] at htick
    obtain ⟨-, hrest⟩ := htick
    rw [Prod.mk.injEq] at hrest
    obtain ⟨hc, hst⟩ := hrest
    subst hc
    subst hst
    have hacc : accFinal tuning state measurement elapsed
        = state.integral_accumulator := by
      unfold accFinal backCalc accAfter accumulate
      simp [hdis]
    refine ⟨hacc, ?_, ?_⟩
    · show iTermFinal tuning state measurement elapsed = none
      unfold iTermFinal
      simp [hdis]
    · unfold accAfter accumulate
      simp [hen, hacc]

/-- Witness for C7: a disabled-integral tick from accumulator 3 keeps it at 3 with
no integral contribution, and the next enabled tick with gain 2, error 2 and
elapsed 1 accumulates to 3 + 4. -/
theorem c7_integral_accumulator_frozen_witness :
    (⟨1, 1, 0, 50, 0, 100, true, false, false⟩ : TuningParameters).integral_enabled
        = false ∧
    engineTick ⟨1, 1, 0, 50, 0, 100, true, false, false⟩ ⟨3, some 40, some 0⟩ 45 1 1
      = some (5, ⟨some 5, none, none⟩, ⟨3, some 45, some 1⟩) ∧
    (⟨0, 2, 0, 50, 0, 100, true, true, false⟩ : TuningParameters).integral_enabled
        = true ∧
    ((3 : ℚ) = 3 ∧ (none : Option ℚ) = none ∧
      accAfter ⟨0, 2, 0, 50, 0, 100, true, true, false⟩ ⟨3, some 45, some 1⟩ 48 1
        = 3 + 2 * errorOf ⟨0, 2, 0, 50, 0, 100, true, true, false⟩ 48 * 1) := by
  have hEq : engineTick ⟨1, 1, 0, 50, 0, 100, true, false, false⟩
      ⟨3, some 40, some 0⟩ 45 1 1
      = some (5, ⟨some 5, none, none⟩, ⟨3, some 45, some 1⟩) := by
    norm_num [engineTick, outputOf, clamp, contribution, pTerm, iTermFinal,
      iTermRaw, accFinal, accAfter, accumulate, backCalc, dTerm, errorOf, rawSum,
      min_def, max_def]
  exact ⟨rfl, hEq, rfl,
    c7_integral_accumulator_frozen ⟨1, 1, 0, 50, 0, 100, true, false, false⟩
      ⟨0, 2, 0, 50, 0, 100, true, true, false⟩ ⟨3, some 40, some 0⟩ 45 1 1 5 48 1
      ⟨some 5, none, none⟩ ⟨3, some 45, some 1⟩ rfl hEq rfl⟩

/-- C8: the Resolver's limit post-processing establishes the invariant
output_min ≤ output_max on the TuningParameters handed to the Engine, by producing
the smaller raw value as output_min and the larger as output_max — so whenever the
raw pair violates the invariant the two values are swapped, and otherwise they are
kept. -/
theorem c8_resolved_limits_ordered (tuning : TuningParameters)
    (rawMin rawMax : ℚ) :
    (applyResolvedLimits tuning rawMin rawMax).output_min = min rawMin rawMax ∧
    (applyResolvedLimits tuning rawMin rawMax).output_max = max rawMin rawMax ∧
    (applyResolvedLimits tuning rawMin rawMax).output_min
      ≤ (applyResolvedLimits tuning rawMin rawMax).output_max := by
  by_cases hab : rawMax < rawMin
  · simp [applyResolvedLimits, resolveLimits, hab, min_eq_right hab.le,
      max_eq_left hab.le, hab.le]
  · have hle : rawMin ≤ rawMax := not_lt.mp hab
    simp [applyResolvedLimits, resolveLimits, hab, min_eq_left hle,
      max_eq_right hle, hle]

end AdvancedPID
